import Mathlib

/-!
Verification of the LED animation core of `gamestate_server_with_leds.py`.

Shallow embedding conventions:
* RGB colors are triples of naturals (`Color`); palettes are lists of colors.
* Python dict payloads passed to `set_state` use only the keys `colors`,
  `type`, `old` and `new`; they are embedded as the `StateData` structure
  with one optional field per key (`dict.get(k, default)` becomes
  `Option.getD`).
* Python `int()` applied to a float truncates toward zero; it is embedded
  as `pyInt` over the reals.  Python `%` on integers returns a result with
  the sign of the divisor, which is Lean's `Int.emod` (the `%` of `ℤ`).
* Renderers are sequences of side effects on the pixel strip; they are
  embedded as lists of operations (`LedOp`) interpreted by `applyOps`.
-/

abbrev Color := ℕ × ℕ × ℕ

def LED_COUNT : ℕ := 50

def COLOR_OFF : Color := (0, 0, 0)
def COLOR_WHITE : Color := (255, 255, 255)
def COLOR_RED : Color := (255, 0, 0)

/-- The `TYPE_COLORS` dict: Pokemon type → base color. -/
def TYPE_COLORS : List (String × Color) :=
  [("normal",   (160, 160, 130)),
   ("fire",     (255, 80, 0)),
   ("water",    (0, 80, 255)),
   ("grass",    (0, 200, 20)),
   ("electric", (255, 220, 0)),
   ("ice",      (0, 200, 200)),
   ("fighting", (200, 20, 20)),
   ("poison",   (150, 0, 200)),
   ("ground",   (180, 140, 20)),
   ("flying",   (100, 120, 255)),
   ("psychic",  (255, 20, 150)),
   ("bug",      (160, 220, 0)),
   ("rock",     (120, 100, 80)),
   ("ghost",    (80, 40, 180)),
   ("dragon",   (60, 0, 255)),
   ("steel",    (100, 140, 160)),
   ("dark",     (60, 40, 40))]

/-- `TYPE_COLORS.get(t, TYPE_COLORS["normal"])`. -/
def typeColorOf (t : String) : Color :=
  (TYPE_COLORS.lookup t).getD (160, 160, 130)

/-- The `POKEMON_TYPES` dict: Pokemon name → type (Kanto 151). -/
def POKEMON_TYPES : List (String × String) :=
  [("bulbasaur", "grass"), ("ivysaur", "grass"), ("venusaur", "grass"),
   ("charmander", "fire"), ("charmeleon", "fire"), ("charizard", "fire"),
   ("squirtle", "water"), ("wartortle", "water"), ("blastoise", "water"),
   ("caterpie", "bug"), ("metapod", "bug"), ("butterfree", "bug"),
   ("weedle", "bug"), ("kakuna", "bug"), ("beedrill", "bug"),
   ("pidgey", "normal"), ("pidgeotto", "normal"), ("pidgeot", "normal"),
   ("rattata", "normal"), ("raticate", "normal"),
   ("spearow", "normal"), ("fearow", "normal"),
   ("ekans", "poison"), ("arbok", "poison"),
   ("pikachu", "electric"), ("raichu", "electric"),
   ("sandshrew", "ground"), ("sandslash", "ground"),
   ("nidoran-f", "poison"), ("nidorina", "poison"), ("nidoqueen", "poison"),
   ("nidoran-m", "poison"), ("nidorino", "poison"), ("nidoking", "poison"),
   ("clefairy", "normal"), ("clefable", "normal"),
   ("vulpix", "fire"), ("ninetales", "fire"),
   ("jigglypuff", "normal"), ("wigglytuff", "normal"),
   ("zubat", "poison"), ("golbat", "poison"),
   ("oddish", "grass"), ("gloom", "grass"), ("vileplume", "grass"),
   ("paras", "bug"), ("parasect", "bug"),
   ("venonat", "bug"), ("venomoth", "bug"),
   ("diglett", "ground"), ("dugtrio", "ground"),
   ("meowth", "normal"), ("persian", "normal"),
   ("psyduck", "water"), ("golduck", "water"),
   ("mankey", "fighting"), ("primeape", "fighting"),
   ("growlithe", "fire"), ("arcanine", "fire"),
   ("poliwag", "water"), ("poliwhirl", "water"), ("poliwrath", "water"),
   ("abra", "psychic"), ("kadabra", "psychic"), ("alakazam", "psychic"),
   ("machop", "fighting"), ("machoke", "fighting"), ("machamp", "fighting"),
   ("bellsprout", "grass"), ("weepinbell", "grass"), ("victreebel", "grass"),
   ("tentacool", "water"), ("tentacruel", "water"),
   ("geodude", "rock"), ("graveler", "rock"), ("golem", "rock"),
   ("ponyta", "fire"), ("rapidash", "fire"),
   ("slowpoke", "water"), ("slowbro", "water"),
   ("magnemite", "electric"), ("magneton", "electric"),
   ("farfetchd", "normal"),
   ("doduo", "normal"), ("dodrio", "normal"),
   ("seel", "water"), ("dewgong", "water"),
   ("grimer", "poison"), ("muk", "poison"),
   ("shellder", "water"), ("cloyster", "water"),
   ("gastly", "ghost"), ("haunter", "ghost"), ("gengar", "ghost"),
   ("onix", "rock"),
   ("drowzee", "psychic"), ("hypno", "psychic"),
   ("krabby", "water"), ("kingler", "water"),
   ("voltorb", "electric"), ("electrode", "electric"),
   ("exeggcute", "grass"), ("exeggutor", "grass"),
   ("cubone", "ground"), ("marowak", "ground"),
   ("hitmonlee", "fighting"), ("hitmonchan", "fighting"),
   ("lickitung", "normal"),
   ("koffing", "poison"), ("weezing", "poison"),
   ("rhyhorn", "ground"), ("rhydon", "ground"),
   ("chansey", "normal"), ("tangela", "grass"), ("kangaskhan", "normal"),
   ("horsea", "water"), ("seadra", "water"),
   ("goldeen", "water"), ("seaking", "water"),
   ("staryu", "water"), ("starmie", "water"),
   ("mrmime", "psychic"), ("scyther", "bug"), ("jynx", "ice"),
   ("electabuzz", "electric"), ("magmar", "fire"), ("pinsir", "bug"),
   ("tauros", "normal"), ("magikarp", "water"), ("gyarados", "water"),
   ("lapras", "water"), ("ditto", "normal"), ("eevee", "normal"),
   ("vaporeon", "water"), ("jolteon", "electric"), ("flareon", "fire"),
   ("porygon", "normal"),
   ("omanyte", "rock"), ("omastar", "rock"),
   ("kabuto", "rock"), ("kabutops", "rock"), ("aerodactyl", "rock"),
   ("snorlax", "normal"),
   ("articuno", "ice"), ("zapdos", "electric"), ("moltres", "fire"),
   ("dratini", "dragon"), ("dragonair", "dragon"), ("dragonite", "dragon"),
   ("mewtwo", "psychic"), ("mew", "psychic")]

/-- Route palettes and the fallback palette, named so the location table and
`get_location_colors` share one copy of each value. -/
def unknownColors : List Color := [(30, 30, 30), (80, 80, 80), (150, 150, 150)]

def routeGenericColors : List Color := [(0, 180, 0), (180, 140, 20), (0, 80, 0)]

def routeMountainColors : List Color := [(150, 100, 50), (100, 100, 100), (0, 150, 0)]

def routeWaterColors : List Color := [(0, 0, 255), (0, 150, 255), (150, 200, 255)]

/-- The `LOCATION_COLORS` dict: location name → [primary, secondary, accent]. -/
def LOCATION_COLORS : List (String × List Color) :=
  [("pokecenter",      [(255, 0, 0),     (128, 128, 128), (255, 180, 0)]),
   ("pokemart",        [(0, 0, 255),     (128, 128, 128), (0, 255, 0)]),
   ("gym",             [(80, 80, 80),    (255, 200, 0),   (139, 69, 19)]),
   ("unknown",         unknownColors),
   ("pallet town",     [(0, 255, 50),    (150, 150, 150), (160, 100, 50)]),
   ("viridian city",   [(0, 100, 0),     (150, 140, 50),  (0, 50, 0)]),
   ("pewter city",     [(100, 100, 100), (80, 120, 80),   (100, 80, 60)]),
   ("cerulean city",   [(0, 180, 255),   (0, 100, 255),   (180, 180, 180)]),
   ("vermilion city",  [(255, 100, 0),   (255, 220, 0),   (0, 50, 255)]),
   ("lavender town",   [(150, 0, 200),   (60, 0, 100),    (160, 120, 200)]),
   ("celadon city",    [(50, 200, 0),    (100, 100, 100), (220, 220, 0)]),
   ("fuchsia city",    [(255, 0, 150),   (0, 180, 0),     (180, 160, 100)]),
   ("saffron city",    [(255, 180, 0),   (150, 150, 150), (200, 200, 200)]),
   ("cinnabar island", [(255, 30, 30),   (150, 0, 0),     (100, 100, 100)]),
   ("indigo plateau",  [(180, 180, 180), (0, 0, 180),     (255, 200, 0)]),
   ("route generic",   routeGenericColors),
   ("route mountain",  routeMountainColors),
   ("route water",     routeWaterColors),
   ("cycling road",    [(255, 255, 0),   (0, 100, 255),   (80, 80, 80)]),
   ("viridian forest", [(0, 80, 0),      (0, 10, 0),      (50, 200, 50)]),
   ("mt moon",         [(100, 100, 100), (30, 30, 30),    (150, 100, 50)]),
   ("rock tunnel",     [(120, 80, 20),   (0, 0, 0),       (255, 200, 50)]),
   ("pokemon tower",   [(100, 0, 150),   (20, 0, 40),     (100, 100, 255)]),
   ("diglett's cave",  [(160, 100, 0),   (60, 30, 0),     (200, 150, 50)]),
   ("safari zone",     [(0, 180, 50),    (180, 180, 50),  (0, 100, 200)]),
   ("power plant",     [(60, 60, 60),    (255, 255, 0),   (255, 100, 0)]),
   ("seafoam islands", [(0, 255, 255),   (180, 220, 255), (0, 0, 150)]),
   ("pokemon mansion", [(150, 0, 50),    (50, 10, 10),    (100, 100, 100)]),
   ("victory road",    [(140, 80, 40),   (120, 120, 120), (200, 50, 0)]),
   ("cerulean cave",   [(50, 0, 200),    (30, 0, 80),     (0, 200, 255)]),
   ("silph co",        [(0, 50, 180),    (200, 0, 0),     (150, 150, 160)]),
   ("one island",      [(255, 180, 50),  (0, 200, 200),   (0, 200, 0)]),
   ("mt ember",        [(200, 40, 0),    (255, 100, 0),   (60, 30, 30)]),
   ("berry forest",    [(0, 150, 0),     (255, 20, 100),  (0, 50, 0)]),
   ("icefall cave",    [(0, 180, 255),   (200, 200, 255), (80, 100, 150)]),
   ("tanoby ruins",    [(200, 150, 50),  (0, 50, 200),    (180, 180, 100)])]

/-- `int(num_str)` on a string of decimal digits. -/
def digitsToNat (cs : List Char) : ℕ :=
  cs.foldl (fun a c => a * 10 + (c.toNat - Char.toNat (Char.ofNat 48))) 0

/-- Python's `name.lower().strip()` for the ASCII strings of this server:
lower-case every character, then drop leading and trailing whitespace.
Implemented on the character list so it reduces inside the kernel. -/
def pyLowerStrip (cs : List Char) : List Char :=
  (((cs.map Char.toLower).dropWhile Char.isWhitespace).reverse.dropWhile
      Char.isWhitespace).reverse

/-- Python's `"route" in name` substring test. -/
def containsRoute (name : String) : Bool :=
  decide (List.IsInfix "route".toList name.toList)

/-- `get_location_colors(location_name)`: parse a location name and return the
matching color palette.  The digit extraction is
`''.join(filter(str.isdigit, name))` — every digit anywhere in the name, in
order, not just a trailing run. -/
def get_location_colors (location_name : String) : List Color :=
  if location_name.data.isEmpty then unknownColors
  else
    let name := String.mk (pyLowerStrip location_name.data)
    match LOCATION_COLORS.lookup name with
    | some cols => cols
    | none =>
      if containsRoute name then
        let numStr := name.toList.filter Char.isDigit
        if numStr.isEmpty then routeGenericColors
        else
          let n := digitsToNat numStr
          if n ∈ [19, 20, 21] then routeWaterColors
          else if n ∈ [3, 4, 9, 10, 23] then routeMountainColors
          else routeGenericColors
      else unknownColors

/-- `get_pokemon_type(pokemon_name)`: type lookup with `"normal"` fallback. -/
def get_pokemon_type (pokemon_name : String) : String :=
  if pokemon_name.data.isEmpty then "normal"
  else (POKEMON_TYPES.lookup (String.mk (pyLowerStrip pokemon_name.data))).getD
    "normal"

/-- `paletteOf` as the claim words it: after a failed exact match, names
containing "route" are classified by their TRAILING digits (the maximal digit
suffix); other names fall to the unknown palette. -/
def specPaletteOf (location_name : String) : List Color :=
  if location_name.data.isEmpty then unknownColors
  else
    let name := String.mk (pyLowerStrip location_name.data)
    match LOCATION_COLORS.lookup name with
    | some cols => cols
    | none =>
      if containsRoute name then
        let numStr := (name.toList.reverse.takeWhile Char.isDigit).reverse
        if numStr.isEmpty then routeGenericColors
        else
          let n := digitsToNat numStr
          if n ∈ [19, 20, 21] then routeWaterColors
          else if n ∈ [3, 4, 9, 10, 23] then routeMountainColors
          else routeGenericColors
      else unknownColors

/-- `paletteOf` as amended: identical to the claim's description except that
the digits classified are ALL digits occurring anywhere in the lowercased,
whitespace-stripped name, concatenated in order. -/
def amendedPaletteOf (location_name : String) : List Color :=
  if location_name.data.isEmpty then unknownColors
  else
    let name := String.mk (pyLowerStrip location_name.data)
    match LOCATION_COLORS.lookup name with
    | some cols => cols
    | none =>
      if containsRoute name then
        let numStr := name.toList.filter Char.isDigit
        if numStr.isEmpty then routeGenericColors
        else
          let n := digitsToNat numStr
          if n ∈ [19, 20, 21] then routeWaterColors
          else if n ∈ [3, 4, 9, 10, 23] then routeMountainColors
          else routeGenericColors
      else unknownColors

/-- The `wheel(pos)` helper of `_anim_levelup` (natural subtraction is exact
here: every subtraction stays nonnegative for `pos ≤ 255`). -/
def wheel (pos : ℕ) : Color :=
  if pos < 85 then (pos * 3, 255 - pos * 3, 0)
  else if pos < 170 then (255 - (pos - 85) * 3, 0, (pos - 85) * 3)
  else (0, (pos - 170) * 3, 255 - (pos - 170) * 3)

/-- One LevelUp tick sets pixel `i` to
`wheel((i * 256 // LED_COUNT + j) & 255)`; `& 255` on a nonnegative integer
is `% 256`. -/
def levelupPixel (i j : ℕ) : Color :=
  wheel ((i * 256 / LED_COUNT + j) % 256)

/-- After each LevelUp tick `j += 3`. -/
def levelupStepJ (j : ℕ) : ℕ := j + 3

/-- View a natural color triple in `ℤ` for comparison with the claim's
integer arithmetic. -/
def colorToInt (c : Color) : ℤ × ℤ × ℤ := ((c.1 : ℤ), (c.2.1 : ℤ), (c.2.2 : ℤ))

/-- `wheel` as the claim words it, over honest integer arithmetic. -/
def specWheel (pos : ℤ) : ℤ × ℤ × ℤ :=
  if pos < 85 then (3 * pos, 255 - 3 * pos, 0)
  else if pos < 170 then (255 - 3 * (pos - 85), 0, 3 * (pos - 85))
  else (0, 3 * (pos - 170), 255 - 3 * (pos - 170))

/-- The payload dict handed to `set_state`.  Only the keys `colors`, `type`,
`old` and `new` are ever set or read; an absent key is `none`. -/
structure StateData where
  colors : Option (List Color) := none
  type : Option String := none
  old : Option String := none
  new : Option String := none
deriving DecidableEq

/-- One side effect of a renderer on the pixel strip / mode register:
`setPix i c` is `pixels[i] = c`, `fill c` is `pixels.fill(c)`, `show'` is
`pixels.show()`, `sleepMs t` is `time.sleep(t/1000)`, and `setState m d` is
`self.set_state(m, d)`. -/
inductive LedOp
  | setPix (i : ℕ) (c : Color)
  | fill (c : Color)
  | show'
  | sleepMs (t : ℚ)
  | setState (mode : String) (data : StateData)
deriving DecidableEq

/-- The strip buffer plus the shared mode register.  The NeoPixel buffer is
a fixed array of `LED_COUNT` cells; it is embedded as a total function on
pixel indices, with only indices `< LED_COUNT` meaningful (every `setPix`
emitted by the renderers is in range, and `fill` writes every cell). -/
structure SysState where
  strip : ℕ → Color
  mode : String
  data : StateData

/-- Interpret one `LedOp`; `set_state` stores the payload and then the mode
tag. -/
def applyOp (s : SysState) : LedOp → SysState
  | .setPix i c => { s with strip := Function.update s.strip i c }
  | .fill c => { s with strip := fun _ => c }
  | .show' => s
  | .sleepMs _ => s
  | .setState m d => { s with data := d, mode := m }

def applyOps (ops : List LedOp) (s : SysState) : SysState :=
  ops.foldl applyOp s

/-- `_anim_switch(old_type, new_type)`: fill with the old color, retract from
both ends to the center, pause, expand from the center outward in the new
color, and finish with `set_state("FIGHTING", {"type": new_type})`.  The
body contains no read of `current_state`. -/
def anim_switch_ops (old_type new_type : String) : List LedOp :=
  let c_old := typeColorOf old_type
  let c_new := typeColorOf new_type
  let center := LED_COUNT / 2
  [LedOp.fill c_old]
    ++ ((List.range center).flatMap fun i =>
        [LedOp.setPix i COLOR_OFF, LedOp.setPix (LED_COUNT - 1 - i) COLOR_OFF,
         LedOp.show', LedOp.sleepMs 60])
    ++ [LedOp.sleepMs 100]
    ++ ((List.range center).flatMap fun i =>
        [LedOp.setPix (center + i) c_new, LedOp.setPix (center - 1 - i) c_new,
         LedOp.show', LedOp.sleepMs 100])
    ++ [LedOp.setState "FIGHTING" { type := some new_type }]

/-- `_anim_damage()`: white impact flash, three red blinks, then
`set_state("FIGHTING", {"type": self.last_enemy_type})`. -/
def anim_damage_ops (last_enemy_type : String) : List LedOp :=
  [LedOp.fill COLOR_WHITE, LedOp.show', LedOp.sleepMs 100]
    ++ ((List.range 3).flatMap fun _ =>
        [LedOp.fill COLOR_RED, LedOp.show', LedOp.sleepMs 100,
         LedOp.fill (50, 0, 0), LedOp.show', LedOp.sleepMs 100])
    ++ [LedOp.setState "FIGHTING" { type := some last_enemy_type }]

/-- Controller state as seen by `_loop_manager`: the shared mode register
(`current_state`, `state_data`) plus the `last_enemy_type` bookkeeping
field.  Pixel effects are modelled separately through the op traces. -/
structure CState where
  mode : String
  data : StateData
  lastEnemy : String
deriving DecidableEq

/-- `LedController.set_state(new_state, data)`: store the payload, then the
mode tag. -/
def set_state (s : CState) (new_state : String) (d : StateData) : CState :=
  { s with data := d, mode := new_state }

/-- Controller state right after `__init__`. -/
def initCState : CState := { mode := "IDLE", data := {}, lastEnemy := "normal" }

/-- One dispatch of `_loop_manager`'s `while` body at the mode register's
granularity.  The `"FIGHTING"` branch records the payload category into
`last_enemy_type` before rendering; the one-shot `"SWITCH"` and `"DAMAGE"`
branches run their animation to completion and end in the `set_state` call
that their renderer performs; the remaining branches loop without touching
the register. -/
def dispatchOnce (s : CState) : CState :=
  if s.mode = "WALKING" then s
  else if s.mode = "ENCOUNTER" then s
  else if s.mode = "FIGHTING" then
    { s with lastEnemy := s.data.type.getD "normal" }
  else if s.mode = "SWITCH" then
    set_state s "FIGHTING" { type := some (s.data.new.getD "normal") }
  else if s.mode = "DAMAGE" then
    set_state s "FIGHTING" { type := some s.lastEnemy }
  else s

/-- An execution step interleaving the dispatcher thread with the event
side: `tick` is one dispatch, `ext m d` is an external `set_state` call. -/
inductive Act
  | tick
  | ext (mode : String) (data : StateData)
deriving DecidableEq

def actStep (s : CState) : Act → CState
  | .tick => dispatchOnce s
  | .ext m d => set_state s m d

def runActs (s : CState) (acts : List Act) : CState :=
  acts.foldl actStep s

/-- The categories recorded at each of the dispatcher's entries into
Fighting mode along an execution, in order (the claim's notion of what
`lastCategory` tracks). -/
def fightingEntryCategories : CState → List Act → List String
  | _, [] => []
  | s, Act.tick :: rest =>
      (if s.mode = "FIGHTING" then [s.data.type.getD "normal"] else [])
        ++ fightingEntryCategories (dispatchOnce s) rest
  | s, Act.ext m d :: rest =>
      fightingEntryCategories (set_state s m d) rest

/-- A register value tagged with the identifier of the `set_state` call that
wrote each of its two fields, to observe which write a reader's snapshot
mixes together. -/
structure Reg4 where
  mode : String
  modeW : ℕ
  data : StateData
  dataW : ℕ
deriving DecidableEq

/-- The atomic memory accesses of the mode register: under the interpreter
lock each single field store and field load is atomic, but `set_state` is
two separate stores and a reader's snapshot is two separate loads. -/
inductive Atom4
  | wdata (id : ℕ) (d : StateData)
  | wmode (id : ℕ) (m : String)
  | rmode
  | rdata
deriving DecidableEq

/-- Register plus the reader's half-read bookkeeping: `pending` holds a mode
tag already read whose payload read is still outstanding; each completed
(mode, payload) snapshot is appended to `obs`. -/
structure RState where
  reg : Reg4
  pending : Option (String × ℕ)
  obs : List Reg4
deriving DecidableEq

def atomStep (s : RState) : Atom4 → RState
  | .wdata id d => { s with reg := { s.reg with data := d, dataW := id } }
  | .wmode id m => { s with reg := { s.reg with mode := m, modeW := id } }
  | .rmode => { s with pending := some (s.reg.mode, s.reg.modeW) }
  | .rdata =>
    match s.pending with
    | some (m, id) =>
        { s with pending := none,
                 obs := s.obs ++ [{ mode := m, modeW := id,
                                    data := s.reg.data, dataW := s.reg.dataW }] }
    | none => s

def runAtoms (s : RState) (l : List Atom4) : RState :=
  l.foldl atomStep s

/-- `set_state(new_state, data)` at access granularity: the payload store
happens first, then the mode store. -/
def set_state_atoms (id : ℕ) (m : String) (d : StateData) : List Atom4 :=
  [Atom4.wdata id d, Atom4.wmode id m]

def callAtoms (calls : List (ℕ × String × StateData)) : List Atom4 :=
  calls.flatMap fun c => set_state_atoms c.1 c.2.1 c.2.2

def reg0 : Reg4 := { mode := "IDLE", modeW := 0, data := {}, dataW := 0 }

def rstate0 : RState := { reg := reg0, pending := none, obs := [] }

/-- A schedule in which a reader's mode load happens after the first
`set_state` completes and its payload load happens after a second
`set_state` completes. -/
def cexSchedule : List Atom4 :=
  set_state_atoms 1 "WALKING" { colors := some routeGenericColors }
    ++ [Atom4.rmode]
    ++ set_state_atoms 2 "SWITCH" { old := some "fire", new := some "water" }
    ++ [Atom4.rdata]

/-- The game events consumed by `EventHandler` (fields beyond those the
handlers read are carried but unused, as in the source). -/
inductive GEvent
  | locationChange (fromLoc toLoc : String)
  | battleStart
  | battleEnd
  | enemyAppeared (pokemon : String) (level hp maxHp : ℤ)
  | enemySwitched (pokemon : String) (level hp maxHp : ℤ)
  | enemyHpChange (pokemon : String) (oldHp newHp delta : ℤ)
  | levelUp (pokemon : String) (oldLevel newLevel : ℤ)
deriving DecidableEq

/-- The fields of the `currentState` snapshot that the handlers read. -/
structure CurrentState where
  location : Option String
  inBattle : Bool
deriving DecidableEq

/-- `EventHandler`'s own state: `current_location` and
`current_enemy_type`. -/
structure HState where
  currentLocation : Option String := none
  currentEnemyType : String := "normal"
deriving DecidableEq

/-- One `handle_*` method: the updated handler state and the `set_state`
calls it performs, in order. -/
def handleEvent (h : HState) (st : CurrentState) :
    GEvent → HState × List (String × StateData)
  | .locationChange _ toLoc =>
      let h' := { h with currentLocation := some toLoc }
      if st.inBattle then (h', [])
      else (h', [("WALKING", { colors := some (get_location_colors toLoc) })])
  | .battleStart => (h, [("ENCOUNTER", {})])
  | .battleEnd =>
      match h.currentLocation with
      | some loc => (h, [("WALKING", { colors := some (get_location_colors loc) })])
      | none => (h, [("IDLE", {})])
  | .enemyAppeared p _ _ _ =>
      ({ h with currentEnemyType := get_pokemon_type p },
       [("FIGHTING", { type := some (get_pokemon_type p) })])
  | .enemySwitched p _ _ _ =>
      ({ h with currentEnemyType := get_pokemon_type p },
       [("SWITCH", { old := some h.currentEnemyType,
                     new := some (get_pokemon_type p) })])
  | .enemyHpChange _ _ _ delta =>
      if delta < 0 then (h, [("DAMAGE", { type := some h.currentEnemyType })])
      else (h, [])
  | .levelUp _ _ _ => (h, [("LEVEL_UP", {})])

/-- `process_events(payload)`: dispatch every event, strictly in list order,
against the payload's one state snapshot. -/
def process_events (h : HState) (st : CurrentState) :
    List GEvent → HState × List (String × StateData)
  | [] => (h, [])
  | e :: rest =>
      ((process_events (handleEvent h st e).1 st rest).1,
       (handleEvent h st e).2 ++ (process_events (handleEvent h st e).1 st rest).2)

/-- A core call at the abstraction level of the claim: the mode together
with the payload components the claim specifies. -/
inductive CoreCall
  | walking (palette : List Color)
  | encounter
  | idle
  | fighting (category : String)
  | switchTo (oldCat newCat : String)
  | damage
  | levelUp
deriving DecidableEq

/-- Read a `set_state` call back at the claim's abstraction level. -/
def viewCall (c : String × StateData) : CoreCall :=
  if c.1 = "WALKING" then .walking (c.2.colors.getD [])
  else if c.1 = "ENCOUNTER" then .encounter
  else if c.1 = "FIGHTING" then .fighting (c.2.type.getD "normal")
  else if c.1 = "SWITCH" then
    .switchTo (c.2.old.getD "normal") (c.2.new.getD "normal")
  else if c.1 = "DAMAGE" then .damage
  else if c.1 = "LEVEL_UP" then .levelUp
  else .idle

/-- The event→call mapping exactly as the claim words it, tracking the
current location and the previously seen enemy category. -/
def specEventCalls (loc : Option String) (cat : String) (st : CurrentState) :
    List GEvent → List CoreCall
  | [] => []
  | .locationChange _ toLoc :: rest =>
      (if st.inBattle then [] else [CoreCall.walking (get_location_colors toLoc)])
        ++ specEventCalls (some toLoc) cat st rest
  | .battleStart :: rest => CoreCall.encounter :: specEventCalls loc cat st rest
  | .battleEnd :: rest =>
      (match loc with
       | some l => CoreCall.walking (get_location_colors l)
       | none => CoreCall.idle) :: specEventCalls loc cat st rest
  | .enemyAppeared p _ _ _ :: rest =>
      CoreCall.fighting (get_pokemon_type p)
        :: specEventCalls loc (get_pokemon_type p) st rest
  | .enemySwitched p _ _ _ :: rest =>
      CoreCall.switchTo cat (get_pokemon_type p)
        :: specEventCalls loc (get_pokemon_type p) st rest
  | .enemyHpChange _ _ _ delta :: rest =>
      (if delta < 0 then [CoreCall.damage] else [])
        ++ specEventCalls loc cat st rest
  | .levelUp _ _ _ :: rest => CoreCall.levelUp :: specEventCalls loc cat st rest

/-- Outcome trace of the `_loop_manager` `while` body: a completed renderer
dispatch, or a fault caught by the `except` arm (which logs it and sleeps
0.1 s before the loop continues). -/
inductive RunEvent
  | rendered
  | faultCaught (msg : String)
deriving DecidableEq

/-- `_loop_manager` with the renderer iterations supplied as a list of
fallible bodies: while `running`, run the next body under `try`; a fault is
caught, logged and followed by a sleep, and the loop proceeds to the next
iteration either way. -/
def loopManager (running : Bool) :
    List (CState → Except String CState) → CState → CState × List RunEvent
  | [], s => (s, [])
  | f :: fs, s =>
      if running then
        match f s with
        | .ok s' =>
            ((loopManager running fs s').1,
             RunEvent.rendered :: (loopManager running fs s').2)
        | .error e =>
            ((loopManager running fs s).1,
             RunEvent.faultCaught e :: (loopManager running fs s).2)
      else (s, [])

/-- A renderer iteration that always faults, for the witness. -/
def failingRenderer : CState → Except String CState :=
  fun _ => Except.error "boom"

/-- The end-to-end scenario of the spec: enter Fighting(fire), dispatch,
switch to water, dispatch twice, take damage, dispatch. -/
def demoActs : List Act :=
  [Act.ext "FIGHTING" { type := some "fire" }, Act.tick,
   Act.ext "SWITCH" { old := some "fire", new := some "water" },
   Act.tick, Act.tick,
   Act.ext "DAMAGE" { type := some "water" }, Act.tick]

/-- A blank strip with the register in its initial state, for witnesses. -/
def sysState0 : SysState :=
  { strip := fun _ => COLOR_OFF, mode := "IDLE", data := {} }

/-- Two complete `set_state` calls, for the C4 witness. -/
def demoCalls : List (ℕ × String × StateData) :=
  [(1, "WALKING", { colors := some routeGenericColors }),
   (2, "FIGHTING", { type := some "water" })]

noncomputable section

/-- Python `int()` on a float: truncation toward zero. -/
def pyInt (x : ℝ) : ℤ := if 0 ≤ x then ⌊x⌋ else ⌈x⌉

/-- `theta = (i * wave_density) + offset` with `wave_density = 0.6`. -/
def walkingTheta (i : ℕ) (offset : ℝ) : ℝ := (i : ℝ) * 0.6 + offset

/-- `brightness = ((sin(theta) + 1) / 2.0) ** 3`. -/
def walkingBrightness (θ : ℝ) : ℝ := ((Real.sin θ + 1) / 2) ^ 3

/-- `cycle_index = int((theta + pi/2) / (2 * pi))`. -/
def walkingCycleIndex (θ : ℝ) : ℤ := pyInt ((θ + Real.pi / 2) / (2 * Real.pi))

/-- `block_idx = cycle_index % 3` (Python `%`: result in `[0, 3)`). -/
def walkingBlockIdx (θ : ℝ) : ℤ := walkingCycleIndex θ % 3

/-- `if len(current_colors) < 3: current_colors = (current_colors * 3)[:3]`. -/
def extendColors (cs : List Color) : List Color :=
  if cs.length < 3 then (cs ++ cs ++ cs).take 3 else cs

/-- `(int(base[0]*brightness), int(base[1]*brightness), int(base[2]*brightness))`. -/
def scaleColor (c : Color) (b : ℝ) : ℤ × ℤ × ℤ :=
  (pyInt ((c.1 : ℝ) * b), pyInt ((c.2.1 : ℝ) * b), pyInt ((c.2.2 : ℝ) * b))

/-- The color `_anim_walking` assigns to pixel `i` in the tick whose phase
shift is `offset`, given that tick's palette; `none` when the palette index
is out of range (Python would raise `IndexError`). -/
def walkingPixel (cs : List Color) (i : ℕ) (offset : ℝ) : Option (ℤ × ℤ × ℤ) :=
  let cur := extendColors cs
  let θ := walkingTheta i offset
  (cur.get? (walkingBlockIdx θ).toNat).map fun c =>
    scaleColor c (walkingBrightness θ)

/-- `offset -= step_size` with `step_size = 0.15`, once per tick after all
pixels are rendered. -/
def walkingStepOffset (offset : ℝ) : ℝ := offset - 0.15

/-- The Walking pixel formula exactly as the claim words it: palette index
`⌊(0.6·i + offset + π/2) / (2π)⌋ mod 3` (a true floor), channels scaled by
`((sin(0.6·i + offset) + 1)/2)³` and truncated. -/
def specWalkingPixel (cs : List Color) (i : ℕ) (offset : ℝ) :
    Option (ℤ × ℤ × ℤ) :=
  let θ := (i : ℝ) * 0.6 + offset
  ((cs.get? ((⌊(θ + Real.pi / 2) / (2 * Real.pi)⌋ % 3).toNat)).map fun c =>
    scaleColor c (((Real.sin θ + 1) / 2) ^ 3))

/-- `clamp(x, 0, 1)`. -/
def clamp01 (x : ℝ) : ℝ := min (max x 0) 1

/-- Modelled from the spec: the analog RGB fixture and its `AnalogSink`
are absent from `src/` (the source file drives only the NeoPixel strip);
the sink holds one RGB triple as 0.0–1.0 intensities and a
hardware-present flag. -/
structure AnalogSink where
  hardware : Bool
  r : ℝ
  g : ℝ
  b : ℝ

/-- Modelled from the spec: `setColor(r,g,b,brightness)` computes per
channel `clamp(channel/255 · brightness, 0, 1)` and is a no-op when the
fixture hardware is absent. -/
def AnalogSink.setColor (s : AnalogSink) (r g b : ℕ) (brightness : ℝ) :
    AnalogSink :=
  if s.hardware then
    { s with r := clamp01 ((r : ℝ) / 255 * brightness),
             g := clamp01 ((g : ℝ) / 255 * brightness),
             b := clamp01 ((b : ℝ) / 255 * brightness) }
  else s

end

theorem wheel_eq_specWheel (p : ℕ) (hp : p < 256) :
    colorToInt (wheel p) = specWheel (p : ℤ) := by
  unfold wheel specWheel colorToInt
  split_ifs <;> simp only [Prod.mk.injEq] <;>
    refine ⟨?_, ?_, ?_⟩ <;> omega

/-- Claim C8: in LevelUp mode each pixel `i` is `wheel((i*256/N + j) mod 256)`
with `wheel` the three-arc piecewise-linear map of the claim, and `j`
advances by 3 per tick. -/
theorem levelup_pixel_formula (i j : ℕ) :
    colorToInt (levelupPixel i j)
        = specWheel (((i : ℤ) * 256 / (LED_COUNT : ℤ) + (j : ℤ)) % 256)
      ∧ levelupStepJ j = j + 3 := by
  constructor
  · have hcast :
        ((i : ℤ) * 256 / (LED_COUNT : ℤ) + (j : ℤ)) % 256
          = ((i * 256 / LED_COUNT + j) % 256 : ℕ) := by
      push_cast
      rfl
    rw [hcast]
    exact wheel_eq_specWheel _ (Nat.mod_lt _ (by norm_num))
  · rfl

theorem getLastD_cons (t x : String) (es : List String) :
    ((t :: es).getLast?).getD x = (es.getLast?).getD t := by
  cases es with
  | nil => rfl
  | cons b bs =>
    rw [List.getLast?_cons_cons,
      List.getLast?_eq_getLast_of_ne_nil (List.cons_ne_nil b bs)]
    rfl

theorem dispatchOnce_fighting (s : CState) (h : s.mode = "FIGHTING") :
    dispatchOnce s = { s with lastEnemy := s.data.type.getD "normal" } := by
  unfold dispatchOnce
  rw [h]
  rfl

theorem dispatchOnce_lastEnemy (s : CState) (h : s.mode ≠ "FIGHTING") :
    (dispatchOnce s).lastEnemy = s.lastEnemy := by
  unfold dispatchOnce set_state
  split_ifs with h1 h2 h3 h4 <;> rfl

/-- `last_enemy_type` always equals the category recorded at the
dispatcher's most recent entry into the Fighting branch, defaulting to its
previous value (initially `"normal"`) when no such entry happened yet. -/
theorem lastEnemy_tracks_fighting_entries (acts : List Act) : ∀ s : CState,
    (runActs s acts).lastEnemy
      = ((fightingEntryCategories s acts).getLast?).getD s.lastEnemy := by
  induction acts with
  | nil => intro s; rfl
  | cons a rest ih =>
    intro s
    cases a with
    | tick =>
      have e1 : runActs s (Act.tick :: rest) = runActs (dispatchOnce s) rest := rfl
      have e2 : fightingEntryCategories s (Act.tick :: rest)
          = (if s.mode = "FIGHTING" then [s.data.type.getD "normal"] else [])
            ++ fightingEntryCategories (dispatchOnce s) rest := rfl
      by_cases h : s.mode = "FIGHTING"
      · rw [e1, e2, if_pos h, ih (dispatchOnce s), dispatchOnce_fighting s h]
        exact (getLastD_cons _ _ _).symm
      · rw [e1, e2, if_neg h, ih (dispatchOnce s), dispatchOnce_lastEnemy s h]
        rfl
    | ext m d =>
      have e1 : runActs s (Act.ext m d :: rest) = runActs (set_state s m d) rest := rfl
      have e2 : fightingEntryCategories s (Act.ext m d :: rest)
          = fightingEntryCategories (set_state s m d) rest := rfl
      rw [e1, e2, ih (set_state s m d)]
      rfl

set_option maxRecDepth 10000

/-- Claim C2: for every pair of categories, one invocation of the Switch
renderer runs to completion without re-checking the mode register: it first
blanks pixel `i` and its mirror `N-1-i` for `i = 0..center-1` (retract),
then sets pixels `center+i` and `center-1-i` to the new category's base
color for `i = 0..center-1` (expand), and on completion — from every
initial strip, mode and payload — it leaves every pixel at the new base
color and sets the register to Fighting with the new category as
payload. -/
theorem switch_completes_to_fighting (old_type new_type : String) (s : SysState) :
    anim_switch_ops old_type new_type
        = LedOp.fill (typeColorOf old_type)
            :: (((List.range 25).flatMap fun i =>
                  [LedOp.setPix i COLOR_OFF, LedOp.setPix (49 - i) COLOR_OFF,
                   LedOp.show', LedOp.sleepMs 60])
              ++ [LedOp.sleepMs 100]
              ++ ((List.range 25).flatMap fun i =>
                  [LedOp.setPix (25 + i) (typeColorOf new_type),
                   LedOp.setPix (24 - i) (typeColorOf new_type),
                   LedOp.show', LedOp.sleepMs 100])
              ++ [LedOp.setState "FIGHTING" { type := some new_type }])
      ∧ (applyOps (anim_switch_ops old_type new_type) s).mode = "FIGHTING"
      ∧ (applyOps (anim_switch_ops old_type new_type) s).data
          = { type := some new_type }
      ∧ ∀ j < LED_COUNT,
          (applyOps (anim_switch_ops old_type new_type) s).strip j
            = typeColorOf new_type := by
  refine ⟨rfl, rfl, rfl, ?_⟩
  intro j hj
  have hj50 : j < 50 := hj
  interval_cases j <;> rfl

/-- Witness for C2 at a concrete input. -/
theorem switch_completes_witness :
    (applyOps (anim_switch_ops "fire" "water") sysState0).mode = "FIGHTING"
      ∧ (applyOps (anim_switch_ops "fire" "water") sysState0).strip 0
          = typeColorOf "water" :=
  ⟨(switch_completes_to_fighting "fire" "water" sysState0).2.1,
   (switch_completes_to_fighting "fire" "water" sysState0).2.2.2 0 (by decide)⟩

/-- Claim C3: the Damage renderer is exactly a 100 ms white flash followed
by 3 repetitions of (bright red 100 ms, dim red (50,0,0) 100 ms); on
completion the dispatcher's Damage branch sets the register to Fighting
with `last_enemy_type` as payload, and `last_enemy_type` is always the
category recorded at the dispatcher's most recent entry into the Fighting
branch (default `"normal"`), also when a Switch happened in between. -/
theorem damage_restores_last_fighting_category :
    (∀ last_enemy_type : String,
        anim_damage_ops last_enemy_type
          = [LedOp.fill (255, 255, 255), LedOp.show', LedOp.sleepMs 100,
             LedOp.fill (255, 0, 0), LedOp.show', LedOp.sleepMs 100,
             LedOp.fill (50, 0, 0), LedOp.show', LedOp.sleepMs 100,
             LedOp.fill (255, 0, 0), LedOp.show', LedOp.sleepMs 100,
             LedOp.fill (50, 0, 0), LedOp.show', LedOp.sleepMs 100,
             LedOp.fill (255, 0, 0), LedOp.show', LedOp.sleepMs 100,
             LedOp.fill (50, 0, 0), LedOp.show', LedOp.sleepMs 100,
             LedOp.setState "FIGHTING" { type := some last_enemy_type }])
      ∧ (∀ s : CState, s.mode = "DAMAGE" →
          dispatchOnce s
            = { mode := "FIGHTING", data := { type := some s.lastEnemy },
                lastEnemy := s.lastEnemy })
      ∧ (∀ acts : List Act,
          (runActs initCState acts).lastEnemy
            = ((fightingEntryCategories initCState acts).getLast?).getD "normal") := by
  refine ⟨fun _ => rfl, ?_, ?_⟩
  · intro s h
    unfold dispatchOnce
    rw [h]
    rfl
  · intro acts
    exact lastEnemy_tracks_fighting_entries acts initCState

/-- Witness for C3: a Damage dispatch from a concrete state, and the spec's
end-to-end Fighting(fire) → Switch(fire,water) → Damage scenario. -/
theorem damage_restores_witness :
    dispatchOnce { mode := "DAMAGE", data := {}, lastEnemy := "fire" }
        = { mode := "FIGHTING", data := { type := some "fire" },
            lastEnemy := "fire" }
      ∧ (runActs initCState demoActs).lastEnemy
          = ((fightingEntryCategories initCState demoActs).getLast?).getD "normal"
      ∧ runActs initCState demoActs
          = { mode := "FIGHTING", data := { type := some "water" },
              lastEnemy := "water" } :=
  ⟨damage_restores_last_fighting_category.2.1 _ rfl,
   damage_restores_last_fighting_category.2.2 demoActs,
   by decide⟩

theorem runAtoms_append (s : RState) (l1 l2 : List Atom4) :
    runAtoms s (l1 ++ l2) = runAtoms (runAtoms s l1) l2 := by
  simp [runAtoms, List.foldl_append]

/-- Complete `set_state` calls leave the reader bookkeeping alone and leave
both write tags equal (to the identifier of the last call). -/
theorem runAtoms_calls (calls : List (ℕ × String × StateData)) :
    ∀ s : RState, s.reg.modeW = s.reg.dataW →
      (runAtoms s (callAtoms calls)).obs = s.obs
        ∧ (runAtoms s (callAtoms calls)).pending = s.pending
        ∧ (runAtoms s (callAtoms calls)).reg.modeW
            = (runAtoms s (callAtoms calls)).reg.dataW := by
  induction calls with
  | nil => exact fun s h => ⟨rfl, rfl, h⟩
  | cons c rest ih =>
    intro s _
    have hstep : runAtoms s (callAtoms (c :: rest))
        = runAtoms
            (atomStep (atomStep s (Atom4.wdata c.1 c.2.2)) (Atom4.wmode c.1 c.2.1))
            (callAtoms rest) := rfl
    rw [hstep]
    exact ih _ rfl

/-- Claim C4 counterexample: with one complete `set_state(WALKING, palette)`
followed by the reader's mode load, then a complete
`set_state(SWITCH, {old,new})`, then the reader's payload load, the reader
observes the mode tag of write 1 paired with the payload of write 2 — the
(mode, payload) pair is not published or observed as an atomic unit. -/
theorem set_state_pair_not_atomic :
    (runAtoms rstate0 cexSchedule).obs
        = [{ mode := "WALKING", modeW := 1,
             data := { old := some "fire", new := some "water" }, dataW := 2 }]
      ∧ (1 : ℕ) ≠ 2 := by
  exact ⟨rfl, by decide⟩

/-- Claim C4 as amended: each single field store and load is atomic and
`set_state` stores the payload before the mode tag, but the pair itself is
not atomic — a snapshot is only guaranteed to pair mode and payload from
one and the same write when the reader's two loads run with no concurrent
`set_state` in flight, as after any sequence of completed calls. -/
theorem set_state_snapshot_after_completed_calls
    (calls : List (ℕ × String × StateData)) (s : RState)
    (hids : s.reg.modeW = s.reg.dataW) :
    (runAtoms s (callAtoms calls ++ [Atom4.rmode, Atom4.rdata])).obs
        = s.obs ++ [(runAtoms s (callAtoms calls)).reg]
      ∧ (runAtoms s (callAtoms calls)).reg.modeW
          = (runAtoms s (callAtoms calls)).reg.dataW := by
  obtain ⟨hobs, hpend, hid⟩ := runAtoms_calls calls s hids
  refine ⟨?_, hid⟩
  rw [runAtoms_append]
  have hread :
      (runAtoms (runAtoms s (callAtoms calls)) [Atom4.rmode, Atom4.rdata]).obs
        = (runAtoms s (callAtoms calls)).obs
            ++ [(runAtoms s (callAtoms calls)).reg] := rfl
  rw [hread, hobs]

/-- Witness for C4's amended statement at two concrete calls. -/
theorem set_state_snapshot_witness :
    (runAtoms rstate0 (callAtoms demoCalls ++ [Atom4.rmode, Atom4.rdata])).obs
        = ([] : List Reg4) ++ [(runAtoms rstate0 (callAtoms demoCalls)).reg]
      ∧ (runAtoms rstate0 (callAtoms demoCalls)).reg.modeW
          = (runAtoms rstate0 (callAtoms demoCalls)).reg.dataW :=
  set_state_snapshot_after_completed_calls demoCalls rstate0 rfl

/-- Claim C5: `process_events` applies the events strictly in list order and
each event triggers exactly the call the claim specifies — Walking with the
location's palette when not in battle, Encounter, Walking/Idle on battle
end, Fighting with the species category, Switch with the old and new
categories, Damage exactly when `delta < 0`, and LevelUp. -/
theorem process_events_order_and_mapping (st : CurrentState)
    (evts : List GEvent) : ∀ h : HState,
    ((process_events h st evts).2).map viewCall
      = specEventCalls h.currentLocation h.currentEnemyType st evts := by
  induction evts with
  | nil => intro h; rfl
  | cons e rest ih =>
    intro h
    cases e with
    | locationChange fromLoc toLoc =>
      by_cases hb : st.inBattle
      · show ((handleEvent h st (GEvent.locationChange fromLoc toLoc)).2
            ++ (process_events (handleEvent h st (GEvent.locationChange fromLoc toLoc)).1 st rest).2).map viewCall
          = _
        rw [show handleEvent h st (GEvent.locationChange fromLoc toLoc)
            = ({ h with currentLocation := some toLoc }, []) from by
          simp [handleEvent, hb]]
        show (process_events { h with currentLocation := some toLoc } st rest).2.map viewCall
          = specEventCalls h.currentLocation h.currentEnemyType st
              (GEvent.locationChange fromLoc toLoc :: rest)
        rw [show specEventCalls h.currentLocation h.currentEnemyType st
              (GEvent.locationChange fromLoc toLoc :: rest)
            = specEventCalls (some toLoc) h.currentEnemyType st rest from by
          simp [specEventCalls, hb]]
        exact ih _
      · show ((handleEvent h st (GEvent.locationChange fromLoc toLoc)).2
            ++ (process_events (handleEvent h st (GEvent.locationChange fromLoc toLoc)).1 st rest).2).map viewCall
          = _
        rw [show handleEvent h st (GEvent.locationChange fromLoc toLoc)
            = ({ h with currentLocation := some toLoc },
               [("WALKING", { colors := some (get_location_colors toLoc) })]) from by
          simp [handleEvent, hb]]
        rw [show specEventCalls h.currentLocation h.currentEnemyType st
              (GEvent.locationChange fromLoc toLoc :: rest)
            = CoreCall.walking (get_location_colors toLoc)
                :: specEventCalls (some toLoc) h.currentEnemyType st rest from by
          simp [specEventCalls, hb]]
        rw [List.map_append]
        exact congrArg₂ _ rfl (ih _)
    | battleStart =>
      rw [show specEventCalls h.currentLocation h.currentEnemyType st
            (GEvent.battleStart :: rest)
          = CoreCall.encounter
              :: specEventCalls h.currentLocation h.currentEnemyType st rest from rfl]
      rw [show (process_events h st (GEvent.battleStart :: rest)).2
          = ("ENCOUNTER", {}) :: (process_events h st rest).2 from rfl]
      rw [List.map_cons]
      exact congrArg₂ _ rfl (ih _)
    | battleEnd =>
      cases hloc : h.currentLocation with
      | none =>
        have ihh := ih h
        rw [hloc] at ihh
        rw [show (process_events h st (GEvent.battleEnd :: rest)).2
            = (handleEvent h st GEvent.battleEnd).2
                ++ (process_events (handleEvent h st GEvent.battleEnd).1 st rest).2
            from rfl]
        rw [show handleEvent h st GEvent.battleEnd = (h, [("IDLE", {})]) from by
          simp [handleEvent, hloc]]
        rw [show specEventCalls none h.currentEnemyType st (GEvent.battleEnd :: rest)
            = CoreCall.idle :: specEventCalls none h.currentEnemyType st rest
            from rfl]
        rw [List.singleton_append, List.map_cons]
        exact congrArg₂ _ rfl ihh
      | some loc =>
        have ihh := ih h
        rw [hloc] at ihh
        rw [show (process_events h st (GEvent.battleEnd :: rest)).2
            = (handleEvent h st GEvent.battleEnd).2
                ++ (process_events (handleEvent h st GEvent.battleEnd).1 st rest).2
            from rfl]
        rw [show handleEvent h st GEvent.battleEnd
            = (h, [("WALKING", { colors := some (get_location_colors loc) })]) from by
          simp [handleEvent, hloc]]
        rw [show specEventCalls (some loc) h.currentEnemyType st (GEvent.battleEnd :: rest)
            = CoreCall.walking (get_location_colors loc)
                :: specEventCalls (some loc) h.currentEnemyType st rest
            from rfl]
        rw [List.singleton_append, List.map_cons]
        exact congrArg₂ _ rfl ihh
    | enemyAppeared p lvl hp maxHp =>
      rw [show (process_events h st (GEvent.enemyAppeared p lvl hp maxHp :: rest)).2
          = ("FIGHTING", { type := some (get_pokemon_type p) })
              :: (process_events { h with currentEnemyType := get_pokemon_type p } st rest).2
          from rfl]
      rw [show specEventCalls h.currentLocation h.currentEnemyType st
            (GEvent.enemyAppeared p lvl hp maxHp :: rest)
          = CoreCall.fighting (get_pokemon_type p)
              :: specEventCalls h.currentLocation (get_pokemon_type p) st rest from rfl]
      rw [List.map_cons]
      exact congrArg₂ _ rfl (ih _)
    | enemySwitched p lvl hp maxHp =>
      rw [show (process_events h st (GEvent.enemySwitched p lvl hp maxHp :: rest)).2
          = ("SWITCH", { old := some h.currentEnemyType,
                         new := some (get_pokemon_type p) })
              :: (process_events { h with currentEnemyType := get_pokemon_type p } st rest).2
          from rfl]
      rw [show specEventCalls h.currentLocation h.currentEnemyType st
            (GEvent.enemySwitched p lvl hp maxHp :: rest)
          = CoreCall.switchTo h.currentEnemyType (get_pokemon_type p)
              :: specEventCalls h.currentLocation (get_pokemon_type p) st rest from rfl]
      rw [List.map_cons]
      exact congrArg₂ _ rfl (ih _)
    | enemyHpChange p o n delta =>
      by_cases hd : delta < 0
      · rw [show (process_events h st (GEvent.enemyHpChange p o n delta :: rest)).2
            = (handleEvent h st (GEvent.enemyHpChange p o n delta)).2
                ++ (process_events
                    (handleEvent h st (GEvent.enemyHpChange p o n delta)).1 st rest).2
            from rfl]
        rw [show handleEvent h st (GEvent.enemyHpChange p o n delta)
            = (h, [("DAMAGE", { type := some h.currentEnemyType })]) from by
          simp [handleEvent, hd]]
        rw [show specEventCalls h.currentLocation h.currentEnemyType st
              (GEvent.enemyHpChange p o n delta :: rest)
            = CoreCall.damage
                :: specEventCalls h.currentLocation h.currentEnemyType st rest from by
          simp [specEventCalls, hd]]
        rw [List.singleton_append, List.map_cons]
        exact congrArg₂ _ rfl (ih _)
      · rw [show (process_events h st (GEvent.enemyHpChange p o n delta :: rest)).2
            = (handleEvent h st (GEvent.enemyHpChange p o n delta)).2
                ++ (process_events
                    (handleEvent h st (GEvent.enemyHpChange p o n delta)).1 st rest).2
            from rfl]
        rw [show handleEvent h st (GEvent.enemyHpChange p o n delta) = (h, []) from by
          simp [handleEvent, hd]]
        rw [show specEventCalls h.currentLocation h.currentEnemyType st
              (GEvent.enemyHpChange p o n delta :: rest)
            = specEventCalls h.currentLocation h.currentEnemyType st rest from by
          simp [specEventCalls, hd]]
        rw [List.nil_append]
        exact ih _
    | levelUp p o n =>
      rw [show (process_events h st (GEvent.levelUp p o n :: rest)).2
          = ("LEVEL_UP", {}) :: (process_events h st rest).2 from rfl]
      rw [show specEventCalls h.currentLocation h.currentEnemyType st
            (GEvent.levelUp p o n :: rest)
          = CoreCall.levelUp
              :: specEventCalls h.currentLocation h.currentEnemyType st rest from rfl]
      rw [List.map_cons]
      exact congrArg₂ _ rfl (ih _)

/-- Claim C6 counterexample: `"19 route"` has no trailing digits, so the
claim's trailing-digit rule yields the generic route palette, but the code
collects ALL digits (`"19"`) and yields the water palette. -/
theorem paletteOf_trailing_digits_counterexample :
    get_location_colors "19 route" = routeWaterColors
      ∧ specPaletteOf "19 route" = routeGenericColors
      ∧ routeWaterColors ≠ routeGenericColors := by
  refine ⟨by decide, by decide, by decide⟩

/-- Claim C6 as amended: palette lookup is an exact match on the
lowercased, whitespace-stripped name; otherwise, for names containing
"route", ALL digits occurring in the name are concatenated and classified
({19,20,21} → water, {3,4,9,10,23} → mountain, any other number → generic
route); every other name, and the empty name, yields the "unknown" palette.
In particular the claim's four examples hold. -/
theorem paletteOf_characterization :
    (∀ s : String, get_location_colors s = amendedPaletteOf s)
      ∧ get_location_colors "Route 19" = routeWaterColors
      ∧ get_location_colors "Route 3" = routeMountainColors
      ∧ get_location_colors "Route 50" = routeGenericColors
      ∧ get_location_colors "" = unknownColors := by
  refine ⟨fun s => rfl, by decide, by decide, by decide, by decide⟩

/-- Claim C7: while the running flag is true the dispatcher executes every
renderer iteration: a faulting iteration is caught, logged and followed by
a sleep (the `faultCaught` outcome), after which dispatching continues with
unchanged state; the loop never terminates because of a renderer fault, and
it stops only when the running flag is false. -/
theorem dispatcher_survives_renderer_faults :
    (∀ (fs : List (CState → Except String CState)) (s : CState),
        ((loopManager true fs s).2).length = fs.length)
      ∧ (∀ (f : CState → Except String CState)
           (fs : List (CState → Except String CState)) (s : CState) (e : String),
          f s = Except.error e →
            loopManager true (f :: fs) s
              = ((loopManager true fs s).1,
                 RunEvent.faultCaught e :: (loopManager true fs s).2))
      ∧ (∀ (fs : List (CState → Except String CState)) (s : CState),
          loopManager false fs s = (s, [])) := by
  refine ⟨?_, ?_, ?_⟩
  · intro fs
    induction fs with
    | nil => intro s; rfl
    | cons f rest ih =>
      intro s
      cases hfs : f s with
      | ok s' => simp [loopManager, hfs, ih]
      | error e => simp [loopManager, hfs, ih]
  · intro f fs s e hfe
    simp [loopManager, hfe]
  · intro fs s
    cases fs <;> rfl

/-- Witness for C7: a renderer that always faults is caught and the loop
runs on. -/
theorem dispatcher_survives_witness :
    loopManager true [failingRenderer] initCState
        = ((loopManager true ([] : List (CState → Except String CState)) initCState).1,
           RunEvent.faultCaught "boom"
             :: (loopManager true ([] : List (CState → Except String CState)) initCState).2)
      ∧ ((loopManager true [failingRenderer] initCState).2).length = 1 :=
  ⟨dispatcher_survives_renderer_faults.2.1 failingRenderer [] initCState "boom" rfl,
   dispatcher_survives_renderer_faults.1 [failingRenderer] initCState⟩

theorem pyInt_of_nonneg {x : ℝ} (h : 0 ≤ x) : pyInt x = ⌊x⌋ := if_pos h

/-- Claim C1 as amended: the Walking renderer computes brightness
`((sin(0.6·i + offset) + 1)/2)³` and scales each channel of the selected
palette color by it (truncating to integer), and after each tick `offset`
decreases by exactly 0.15; the palette index is the claim's
`⌊(0.6·i + offset + π/2)/(2π)⌋ mod 3` whenever `0.6·i + offset + π/2 ≥ 0`,
while for smaller offsets the code truncates the quotient toward zero
(Python `int()`) instead of flooring it. -/
theorem walking_pixel_matches_spec (cs : List Color) (i : ℕ) (offset : ℝ)
    (h3 : cs.length = 3) (hnn : 0 ≤ walkingTheta i offset + Real.pi / 2) :
    walkingPixel cs i offset = specWalkingPixel cs i offset
      ∧ walkingStepOffset offset = offset - 0.15 := by
  refine ⟨?_, rfl⟩
  have hq : 0 ≤ (walkingTheta i offset + Real.pi / 2) / (2 * Real.pi) :=
    div_nonneg hnn (by positivity)
  have hext : extendColors cs = cs := by
    unfold extendColors
    rw [if_neg (by omega)]
  simp only [walkingPixel, specWalkingPixel, walkingBlockIdx, walkingCycleIndex,
    walkingBrightness, walkingTheta]
  unfold walkingTheta at hq
  rw [hext, pyInt_of_nonneg hq]

/-- Witness for C1's amended statement at palette = route generic, `i = 0`,
`offset = 0`. -/
theorem walking_pixel_witness :
    routeGenericColors.length = 3
      ∧ 0 ≤ walkingTheta 0 0 + Real.pi / 2
      ∧ walkingPixel routeGenericColors 0 0 = specWalkingPixel routeGenericColors 0 0
      ∧ walkingStepOffset 0 = 0 - 0.15 := by
  have hnn : 0 ≤ walkingTheta 0 0 + Real.pi / 2 := by
    unfold walkingTheta
    simp
    positivity
  have h := walking_pixel_matches_spec routeGenericColors 0 0 rfl hnn
  exact ⟨rfl, hnn, h.1, h.2⟩

/-- Claim C1 counterexample: at pixel 0 with `offset = -π` (on the route
generic palette), the quotient `(θ + π/2)/(2π)` is `-1/4`; Python `int()`
truncates it to 0 so the code uses palette color 0 = (0,180,0) and writes
(0,22,0), while the claim's `⌊-1/4⌋ mod 3 = 2` selects (0,80,0) and yields
(0,10,0). -/
theorem walking_pixel_floor_counterexample :
    walkingPixel routeGenericColors 0 (-Real.pi) = some (0, 22, 0)
      ∧ specWalkingPixel routeGenericColors 0 (-Real.pi) = some (0, 10, 0)
      ∧ walkingPixel routeGenericColors 0 (-Real.pi)
          ≠ specWalkingPixel routeGenericColors 0 (-Real.pi) := by
  have hθ : walkingTheta 0 (-Real.pi) = -Real.pi := by
    unfold walkingTheta
    push_cast
    ring
  have hq : (-Real.pi + Real.pi / 2) / (2 * Real.pi) = -(1 / 4 : ℝ) := by
    have hpi : Real.pi ≠ 0 := Real.pi_ne_zero
    field_simp
    ring
  have hb : walkingBrightness (-Real.pi) = 1 / 8 := by
    unfold walkingBrightness
    rw [Real.sin_neg, Real.sin_pi]
    norm_num
  have hceil : pyInt (-(1 / 4 : ℝ)) = 0 := by
    unfold pyInt
    rw [if_neg (by norm_num)]
    exact Int.ceil_eq_iff.mpr (by norm_num)
  have hfloor : ⌊-(1 / 4 : ℝ)⌋ = -1 := Int.floor_eq_iff.mpr (by norm_num)
  have hscale180 : scaleColor ((0 : ℕ), (180 : ℕ), (0 : ℕ)) (1 / 8) = (0, 22, 0) := by
    unfold scaleColor
    have e0 : (((0 : ℕ) : ℝ)) * (1 / 8) = 0 := by norm_num
    have e180 : (((180 : ℕ) : ℝ)) * (1 / 8) = 45 / 2 := by norm_num
    rw [show ((((0 : ℕ), (180 : ℕ), (0 : ℕ)) : Color).1 : ℝ) = ((0 : ℕ) : ℝ) from rfl]
    rw [e0, e180]
    rw [pyInt_of_nonneg (by norm_num), pyInt_of_nonneg (by norm_num)]
    rw [Int.floor_zero, show ⌊(45 / 2 : ℝ)⌋ = 22 from Int.floor_eq_iff.mpr (by norm_num)]
  have hscale80 : scaleColor ((0 : ℕ), (80 : ℕ), (0 : ℕ)) (1 / 8) = (0, 10, 0) := by
    unfold scaleColor
    have e0 : (((0 : ℕ) : ℝ)) * (1 / 8) = 0 := by norm_num
    have e80 : (((80 : ℕ) : ℝ)) * (1 / 8) = 10 := by norm_num
    rw [show ((((0 : ℕ), (80 : ℕ), (0 : ℕ)) : Color).1 : ℝ) = ((0 : ℕ) : ℝ) from rfl]
    rw [e0, e80]
    rw [pyInt_of_nonneg (by norm_num), pyInt_of_nonneg (by norm_num)]
    rw [Int.floor_zero, show ⌊(10 : ℝ)⌋ = 10 from Int.floor_eq_iff.mpr (by norm_num)]
  have hcode : walkingPixel routeGenericColors 0 (-Real.pi) = some (0, 22, 0) := by
    simp only [walkingPixel, walkingBlockIdx, walkingCycleIndex]
    rw [hθ, hq, hceil, hb]
    rw [show extendColors routeGenericColors = routeGenericColors from by decide]
    rw [show routeGenericColors.get? (Int.toNat ((0 : ℤ) % 3))
        = some ((0 : ℕ), (180 : ℕ), (0 : ℕ)) from rfl]
    rw [Option.map_some']
    rw [hscale180]
  have hspec : specWalkingPixel routeGenericColors 0 (-Real.pi) = some (0, 10, 0) := by
    simp only [specWalkingPixel]
    push_cast [Nat.cast_zero]
    rw [show ((0 : ℝ) * 0.6 + -Real.pi) = -Real.pi from by ring]
    rw [hq, hfloor]
    rw [show Real.sin (-Real.pi) = 0 from by rw [Real.sin_neg, Real.sin_pi]; ring]
    rw [show (((0 : ℝ) + 1) / 2) ^ 3 = 1 / 8 from by norm_num]
    rw [show routeGenericColors.get? (Int.toNat ((-1 : ℤ) % 3))
        = some ((0 : ℕ), (80 : ℕ), (0 : ℕ)) from rfl]
    rw [Option.map_some']
    rw [hscale80]
  refine ⟨hcode, hspec, ?_⟩
  rw [hcode, hspec]
  intro hcontra
  simp only [Option.some.injEq, Prod.mk.injEq] at hcontra
  omega

/-- Claim C9 (the analog fixture is modelled from the spec, being absent
from `src/`): `setColor(r,g,b,brightness)` with `r,g,b ∈ [0,255]` and
`brightness ∈ [0,1]` computes per channel `clamp(channel/255·brightness,
0, 1)`; under those input bounds the clamp is exact, and with the hardware
absent the call is a no-op. -/
theorem analog_setColor_formula (s : AnalogSink) (r g b : ℕ) (br : ℝ)
    (hr : r ≤ 255) (h0 : 0 ≤ br) (h1 : br ≤ 1) :
    (s.hardware = false → AnalogSink.setColor s r g b br = s)
      ∧ (s.hardware = true →
          (AnalogSink.setColor s r g b br).r = clamp01 ((r : ℝ) / 255 * br)
            ∧ (AnalogSink.setColor s r g b br).g = clamp01 ((g : ℝ) / 255 * br)
            ∧ (AnalogSink.setColor s r g b br).b = clamp01 ((b : ℝ) / 255 * br))
      ∧ clamp01 ((r : ℝ) / 255 * br) = (r : ℝ) / 255 * br := by
  refine ⟨?_, ?_, ?_⟩
  · intro h
    simp [AnalogSink.setColor, h]
  · intro h
    unfold AnalogSink.setColor
    rw [h]
    exact ⟨rfl, rfl, rfl⟩
  · unfold clamp01
    have hx0 : 0 ≤ (r : ℝ) / 255 * br := by positivity
    have hx1 : (r : ℝ) / 255 * br ≤ 1 := by
      have hr1 : (r : ℝ) / 255 ≤ 1 := by
        rw [div_le_one (by norm_num)]
        exact_mod_cast hr
      nlinarith [hr1, h0, h1, hx0]
    rw [max_eq_left hx0, min_eq_left hx1]

/-- Witness for C9 at hardware present, `r = 255`, `brightness = 1/2`, and
hardware absent. -/
theorem analog_setColor_witness :
    (AnalogSink.setColor ⟨true, 0, 0, 0⟩ 255 0 0 (1 / 2)).r
        = clamp01 (((255 : ℕ) : ℝ) / 255 * (1 / 2))
      ∧ clamp01 (((255 : ℕ) : ℝ) / 255 * (1 / 2)) = ((255 : ℕ) : ℝ) / 255 * (1 / 2)
      ∧ AnalogSink.setColor ⟨false, 0, 0, 0⟩ 255 0 0 (1 / 2) = ⟨false, 0, 0, 0⟩ := by
  have h := analog_setColor_formula ⟨true, 0, 0, 0⟩ 255 0 0 (1 / 2)
    (by norm_num) (by norm_num) (by norm_num)
  have h' := analog_setColor_formula ⟨false, 0, 0, 0⟩ 255 0 0 (1 / 2)
    (by norm_num) (by norm_num) (by norm_num)
  exact ⟨(h.2.1 rfl).1, h.2.2, h'.1 rfl⟩

/-- Claim C10: a non-empty Walking palette with fewer than 3 entries is
extended each tick to exactly 3 colors by cycling (`(colors*3)[:3]`), so
the block-index selection `mod 3` is always in range and every pixel is
assigned a color (no index error). -/
theorem walking_short_palette_extended (cs : List Color) (hne : cs ≠ [])
    (hlen : cs.length < 3) (i : ℕ) (offset : ℝ) :
    extendColors cs = (cs ++ cs ++ cs).take 3
      ∧ (extendColors cs).length = 3
      ∧ (walkingPixel cs i offset).isSome = true := by
  have hpos : 0 < cs.length := List.length_pos.mpr hne
  have hext : extendColors cs = (cs ++ cs ++ cs).take 3 := by
    unfold extendColors
    rw [if_pos hlen]
  have hL : (extendColors cs).length = 3 := by
    rw [hext, List.length_take, List.length_append, List.length_append]
    omega
  refine ⟨hext, hL, ?_⟩
  have hidx : (walkingBlockIdx (walkingTheta i offset)).toNat < 3 := by
    have hz : 0 ≤ walkingCycleIndex (walkingTheta i offset) % 3 :=
      Int.emod_nonneg _ (by norm_num)
    have h3 : walkingCycleIndex (walkingTheta i offset) % 3 < 3 :=
      Int.emod_lt_of_pos _ (by norm_num)
    unfold walkingBlockIdx
    omega
  have hsome :=
    List.get?_eq_get (l := extendColors cs)
      (n := (walkingBlockIdx (walkingTheta i offset)).toNat) (by rw [hL]; exact hidx)
  simp only [walkingPixel]
  rw [hsome]
  rfl

/-- Witness for C10 on the singleton palette `[(10,20,30)]`. -/
theorem walking_short_palette_witness :
    ([((10 : ℕ), (20 : ℕ), (30 : ℕ))] : List Color) ≠ []
      ∧ ([((10 : ℕ), (20 : ℕ), (30 : ℕ))] : List Color).length < 3
      ∧ (extendColors [((10 : ℕ), (20 : ℕ), (30 : ℕ))]).length = 3
      ∧ (walkingPixel [((10 : ℕ), (20 : ℕ), (30 : ℕ))] 0 0).isSome = true := by
  have h := walking_short_palette_extended [((10 : ℕ), (20 : ℕ), (30 : ℕ))]
    (by simp) (by simp) 0 0
  exact ⟨by simp, by simp, h.2.1, h.2.2⟩
